import Mathlib

/-!
Verification of the toke-api reference-data / billing backend.

The definitions below are a shallow embedding of the TypeScript sources:
  * `ExtractQueryParams.extractPaginationFromQuery` and `BaseModel.findAll`
    (pagination handling),
  * `BaseModel.guidGenerator` (GUID generation from `max(id)`),
  * `R.handleSuccess` / `R.handleError` (JSON response envelopes),
  * `CountryModel` create/update/delete plus the country Express router
    (status-code mapping),
  * the `license.adjustment.db.ts` and billing-cycle schema validators,
  * `Revision.getRevision` (revision timestamp formatting).

JavaScript numbers used for monetary amounts are modelled as exact
rationals (`Rat`); machine integers as `Int`/`Nat`; `undefined`/`null`
as `Option`; thrown errors as `Except String`.
-/

namespace TokeApi

/-! ## JavaScript primitives used by the sources -/

/-- Numeric value of a list of decimal digit characters (most significant first). -/
def digitsVal (l : List Char) : Nat :=
  l.foldl (fun a c => a * 10 + (c.toNat - 48)) 0

/-- Parse the leading digit run of `l`; `none` when there is no digit,
mirroring how `parseInt(·, 10)` fails with `NaN`. -/
def leadingDigitsVal (l : List Char) : Option Nat :=
  let ds := l.takeWhile Char.isDigit
  if ds.isEmpty then none else some (digitsVal ds)

/-- Model of JavaScript `parseInt(s, 10)`: skip leading whitespace, read an
optional sign, then the longest leading digit run; `none` models `NaN`. -/
def jsParseInt (s : String) : Option Int :=
  let l := s.data.dropWhile (fun c => c = ' ' ∨ c = '\t' ∨ c = '\n' ∨ c = '\r')
  match l with
  | '-' :: rest => (leadingDigitsVal rest).map (fun n => -(n : Int))
  | '+' :: rest => (leadingDigitsVal rest).map (fun n => (n : Int))
  | _ => (leadingDigitsVal l).map (fun n => (n : Int))

/-- `pat` begins the list `l` (JS `String.prototype.startsWith` on char lists). -/
def leadsWith : List Char → List Char → Bool
  | [], _ => true
  | _ :: _, [] => false
  | a :: as, b :: bs => a = b && leadsWith as bs

/-- `pat` occurs contiguously inside `l`. -/
def hasSubList (pat : List Char) : List Char → Bool
  | [] => pat.isEmpty
  | l@(_ :: rest) => leadsWith pat l || hasSubList pat rest

/-- Model of JavaScript `s.includes(pat)`. -/
def jsIncludes (s pat : String) : Bool :=
  hasSubList pat.data s.data

/-- The whitespace characters stripped by JavaScript `trim()`. -/
def jsWs (c : Char) : Bool :=
  c = ' ' || c = '\t' || c = '\n' || c = '\r'

/-- Model of JavaScript `s.trim()`. -/
def jsTrim (s : String) : String :=
  ⟨((s.data.dropWhile jsWs).reverse.dropWhile jsWs).reverse⟩

/-- Model of JavaScript `s.toUpperCase()` on ASCII data. -/
def jsToUpper (s : String) : String :=
  ⟨s.data.map Char.toUpper⟩

/-- Test for the route regex `^\d{6}$`. -/
def isSixDigits (s : String) : Bool :=
  s.data.length = 6 && s.data.all Char.isDigit

/-- Test for the route regex `^\d+$`. -/
def isDigits1 (s : String) : Bool :=
  !s.data.isEmpty && s.data.all Char.isDigit

/-- Test for the route regex `^[A-Z]{2}$/i` (two ASCII letters). -/
def isTwoLetters (s : String) : Bool :=
  s.data.length = 2 && s.data.all (fun c => ('A' ≤ c && c ≤ 'Z') || ('a' ≤ c && c ≤ 'z'))

/-! ## Pagination (`extract.query.params.ts` and `BaseModel.findAll`) -/

/-- The `{ offset?, limit? }` object threaded from the query string to
`BaseModel.findAll`. -/
structure Pagination where
  offset : Option Int := none
  limit : Option Int := none
  deriving Repr, DecidableEq

/-- `ExtractQueryParams.extractPaginationFromQuery`: each query parameter is
parsed with `parseInt(·, 10)`; the offset is kept when `≥ 0`, the limit when
`0 < limit ≤ 1000`; other values are dropped. -/
def extractPaginationFromQuery (qoffset qlimit : Option String) : Pagination :=
  let off : Option Int :=
    match qoffset with
    | none => none
    | some s =>
      match jsParseInt s with
      | some o => if 0 ≤ o then some o else none
      | none => none
  let lim : Option Int :=
    match qlimit with
    | none => none
    | some s =>
      match jsParseInt s with
      | some l => if 0 < l ∧ l ≤ 1000 then some l else none
      | none => none
  { offset := off, limit := lim }

/-- The `queryOptions.offset` part of `BaseModel.findAll`: applied only when
it is a number `≥ 0`. -/
def applyOffset {α : Type} (p : Pagination) (rows : List α) : List α :=
  match p.offset with
  | some o => if 0 ≤ o then rows.drop o.toNat else rows
  | none => rows

/-- The row selection of `BaseModel.findAll`: the offset is applied when it
is a number `≥ 0`, the limit when it is a number `> 0`; a missing option
leaves the row list untouched. -/
def findAllRows {α : Type} (p : Pagination) (rows : List α) : List α :=
  match p.limit with
  | some l => if 0 < l then (applyOffset p rows).take l.toNat else applyOffset p rows
  | none => applyOffset p rows

/-! ## GUID generation (`BaseModel.guidGenerator`) -/

/-- `BaseModel.guidGenerator(tableName, length)`: `maxId` is
`(await model.max('id')) || 0`, i.e. the table's maximum primary key, `0`
for an empty table.  Lengths `< 3` are rejected (`null`); otherwise the
result is `10^(length-1) + (maxId + 1)`. -/
def guidGenerator (maxId : Nat) (length : Nat := 6) : Option Nat :=
  if length < 3 then none
  else some (10 ^ (length - 1) + (maxId + 1))

/-! ## JSON values and the response envelope (`tools/response.ts`) -/

/-- JSON values as produced by `res.json(...)`; objects keep field order. -/
inductive JVal where
  | null : JVal
  | bool (b : Bool) : JVal
  | num (n : Int) : JVal
  | str (s : String) : JVal
  | obj (fields : List (String × JVal)) : JVal
  | arr (items : List JVal) : JVal
  deriving Repr

/-- Field names of a JSON object body, in order. -/
def jsonKeys (fields : List (String × JVal)) : List String :=
  fields.map Prod.fst

/-- Lookup of a field in a JSON object body. -/
def jsonGet (fields : List (String × JVal)) (k : String) : Option JVal :=
  (fields.find? (fun f => f.fst = k)).map Prod.snd

/-- The `{code, message}` error payload passed to `R.handleError`. -/
structure ErrBody where
  code : String
  message : String
  deriving Repr, DecidableEq

/-- `R.handleSuccess(res, structure, httpCode = 200)`: the body sent by
`res.status(httpCode).json({ success: true, data: structure })`. -/
def handleSuccessBody (structure' : JVal) : List (String × JVal) :=
  [("success", .bool true), ("data", structure')]

/-- `R.handleError(res, httpCode, error)`: the body sent by
`res.status(httpCode).json({ success: false, error, timestamp: new Date().toISOString() })`;
`ts` stands for the ISO timestamp taken at response time. -/
def handleErrorBody (error : ErrBody) (ts : String) : List (String × JVal) :=
  [("success", .bool false),
   ("error", .obj [("code", .str error.code), ("message", .str error.message)]),
   ("timestamp", .str ts)]

/-- An HTTP response of the route layer: status code plus JSON object body. -/
abbrev RouteResponse := Nat × List (String × JVal)

/-! ## Country rows and in-memory model state (`CountryModel.ts`) -/

/-- One persisted row of the `xf_country` table. -/
structure CountryRow where
  id : Nat
  guid : Nat
  code : Nat
  iso : String
  name : String
  timezone : Option String := none
  mobileRegex : Option String := none
  flag : Option String := none
  deriving Repr, DecidableEq

/-- The in-memory field state of a `CountryModel` instance; `none` models a
TypeScript `undefined` field. -/
structure CountryMem where
  id : Option Nat := none
  guid : Option Nat := none
  code : Option Nat := none
  iso : Option String := none
  name : Option String := none
  timezone : Option String := none
  mobileRegex : Option String := none
  flag : Option String := none
  deriving Repr, DecidableEq

/-- The `xf_country` table: its rows in insertion order. -/
abbrev CountryTable := List CountryRow

/-- `max('id')` over the country table, `0` when empty (`(… as number) || 0`). -/
def countryMaxId (st : CountryTable) : Nat :=
  st.foldr (fun r acc => max r.id acc) 0

/-- `CountryModel.findByCode`: first row whose numeric code matches. -/
def countryFindByCode (st : CountryTable) (code : Nat) : Option CountryRow :=
  st.find? (fun r => r.code = code)

/-- `CountryModel.findByIso`: the lookup upper-cases its argument. -/
def countryFindByIso (st : CountryTable) (iso : String) : Option CountryRow :=
  st.find? (fun r => r.iso = jsToUpper iso)

/-- `CountryModel.findByGuid`. -/
def countryFindByGuid (st : CountryTable) (guid : Nat) : Option CountryRow :=
  st.find? (fun r => r.guid = guid)

/-- `CountryModel.find` (primary-key lookup). -/
def countryFindById (st : CountryTable) (id : Nat) : Option CountryRow :=
  st.find? (fun r => r.id = id)

/-! ### Country field validators (`CountryDbStructure.validation`,
from the country schema document bundled in `database/data/tenant.db.ts`) -/

/-- `validateCode`: `Number.isInteger(code) && code > 0 && code <= 999`
(the code reaches the model through `Number(...)` as an integer). -/
def validateCode (c : Nat) : Bool :=
  decide (0 < c ∧ c ≤ 999)

/-- `validateIso`: the argument is trimmed and upper-cased, then tested
against `^[A-Z]{2}$`. -/
def validateIso (iso : String) : Bool :=
  (jsToUpper (jsTrim iso)).data.length = 2 &&
    (jsToUpper (jsTrim iso)).data.all (fun c => 'A' ≤ c && c ≤ 'Z')

/-- `validateName`: trimmed length between 2 and 128. -/
def validateName (n : String) : Bool :=
  decide (2 ≤ (jsTrim n).length ∧ (jsTrim n).length ≤ 128)

/-- `Continent/City` alternative of the timezone pattern. -/
def tzContinentCity (l : List Char) : Bool :=
  match l.span (fun c => c ≠ '/') with
  | (before, '/' :: after) =>
    (match before with
     | c :: rest => ('A' ≤ c && c ≤ 'Z') && !rest.isEmpty &&
         rest.all (fun d => 'a' ≤ d && d ≤ 'z')
     | [] => false) &&
    !after.isEmpty &&
    after.all (fun d => ('A' ≤ d && d ≤ 'Z') || ('a' ≤ d && d ≤ 'z') || d = '_')
  | _ => false

/-- `UTC±offset` alternative of the timezone pattern. -/
def tzUtcOffset (l : List Char) : Bool :=
  match l with
  | 'U' :: 'T' :: 'C' :: sign :: rest =>
    (sign = '+' || sign = '-') &&
    (match rest.span Char.isDigit with
     | (ds, tail) =>
       (ds.length = 1 || ds.length = 2) &&
       (tail.isEmpty ||
        (match tail with
         | ':' :: ms => ms.length = 2 && ms.all Char.isDigit
         | _ => false)))
  | _ => false

/-- `validateTimezone`: the trimmed argument matches
`^([A-Z][a-z]+\/[A-Za-z_]+|UTC[+-]\d{1,2}(:\d{2})?|UTC)$`. -/
def validateTimezone (tz : String) : Bool :=
  tzContinentCity (jsTrim tz).data || tzUtcOffset (jsTrim tz).data || jsTrim tz = "UTC"

/-- An ASCII letter. -/
def isAsciiLetter (c : Char) : Bool :=
  ('A' ≤ c && c ≤ 'Z') || ('a' ≤ c && c ≤ 'z')

/-- `validateMobileRegex`: the trimmed argument matches
`^[a-zA-Z][a-zA-Z0-9_]*$` — a leading letter, then letters, digits or
underscores. -/
def validateMobileRegex (s : String) : Bool :=
  match (jsTrim s).data with
  | [] => false
  | c :: rest =>
    isAsciiLetter c &&
      rest.all (fun d => isAsciiLetter d || ('0' ≤ d && d ≤ '9') || d = '_')

/-- `validateFlag`: trimmed length between 1 and 10. -/
def validateFlag (s : String) : Bool :=
  decide (1 ≤ (jsTrim s).data.length ∧ (jsTrim s).data.length ≤ 10)

/-- One field of `cleanData`: a truthy (non-empty) string is replaced by its
normalised form, an empty or undefined one is left alone. -/
def cleanOptStr (f : String → String) : Option String → Option String
  | some s => if s = "" then some s else some (f s)
  | none => none

/-- `CountryDbStructure.validation.cleanData`: normalises the truthy string
fields in place — the ISO code is trimmed and upper-cased, name, timezone,
mobileRegex and flag are trimmed; `id`, `guid` and the numeric `code` are
untouched. -/
def cleanData (m : CountryMem) : CountryMem :=
  { m with
    iso := cleanOptStr (fun s => jsToUpper (jsTrim s)) m.iso
    name := cleanOptStr jsTrim m.name
    timezone := cleanOptStr jsTrim m.timezone
    mobileRegex := cleanOptStr jsTrim m.mobileRegex
    flag := cleanOptStr jsTrim m.flag }

/-- The throw sequence of `CountryModel.validate`: required-field and format
checks on the raw instance fields, in source order, each failure throwing
its documented message. -/
def countryValidateChecks (m : CountryMem) : Except String Unit :=
  match m.code with
  | none => .error "Country code must be a positive integer between 1 and 999"
  | some c =>
    if !validateCode c then
      .error "Country code must be a positive integer between 1 and 999"
    else match m.iso with
    | none => .error "Country ISO must be exactly 2 uppercase letters (ISO 3166-1 alpha-2)"
    | some iso =>
      if iso = "" || !validateIso iso then
        .error "Country ISO must be exactly 2 uppercase letters (ISO 3166-1 alpha-2)"
      else match m.name with
      | none => .error "Country name must be between 2 and 128 characters"
      | some nm =>
        if nm = "" || !validateName nm then
          .error "Country name must be between 2 and 128 characters"
        else if (match m.timezone with
                 | some tz => tz ≠ "" && !validateTimezone tz
                 | none => false) then
          .error "Invalid timezone format. Use Continent/City or UTC±offset format"
        else if (match m.mobileRegex with
                 | some mr => mr ≠ "" && !validateMobileRegex mr
                 | none => false) then
          .error "Mobile regex reference must be a valid identifier (camelCase or UPPER_CASE)"
        else if (match m.flag with
                 | some f => f ≠ "" && !validateFlag f
                 | none => false) then
          .error "Flag must be a valid emoji (1-10 characters)"
        else .ok ()

/-- `CountryModel.validate`: run the checks, then `cleanData(this)`, which
mutates the instance; the result is the normalised instance state that the
subsequent create or update reads. -/
def countryValidate (m : CountryMem) : Except String CountryMem :=
  match countryValidateChecks m with
  | .error e => .error e
  | .ok _ => .ok (cleanData m)

/-! ## Country persistence operations (`CountryModel.ts`) -/

/-- `hydrate`: load an instance's fields from a row. -/
def memOfRow (r : CountryRow) : CountryMem :=
  { id := some r.id, guid := some r.guid, code := some r.code, iso := some r.iso,
    name := some r.name, timezone := r.timezone, mobileRegex := r.mobileRegex,
    flag := r.flag }

/-- `CountryModel.create`: validate (which normalises the instance), generate
the GUID from `max(id)`, check the cleaned numeric code and ISO code for
duplicates (throwing the "... already exists" messages), then insert the
cleaned fields; the new row's primary key is the next auto-increment value.
The `getD` defaults model the non-null assertions `this.code!` / `this.iso!`
on fields the passed validation guarantees to be defined. -/
def countryCreate (st : CountryTable) (m0 : CountryMem) :
    Except String (CountryTable × CountryRow) :=
  match countryValidate m0 with
  | .error e => .error e
  | .ok m =>
    match guidGenerator (countryMaxId st) 6 with
    | none => .error "Failed to generate GUID for country entry"
    | some guid =>
      if (countryFindByCode st (m.code.getD 0)).isSome then
        .error ("Country code '" ++ Nat.repr (m.code.getD 0) ++ "' already exists")
      else if (countryFindByIso st (m.iso.getD "")).isSome then
        .error ("Country ISO '" ++ m.iso.getD "" ++ "' already exists")
      else
        let row : CountryRow :=
          { id := countryMaxId st + 1, guid := guid, code := m.code.getD 0,
            iso := m.iso.getD "", name := m.name.getD "",
            timezone := m.timezone, mobileRegex := m.mobileRegex, flag := m.flag }
        .ok (st ++ [row], row)

/-- The `updateData` record built by `CountryModel.update`: one entry per
in-memory field that is not `undefined`.  Neither `id` nor `guid` has a
slot: they are never part of the update payload. -/
structure CountryUpdateData where
  code : Option Nat := none
  iso : Option String := none
  name : Option String := none
  timezone : Option String := none
  mobileRegex : Option String := none
  flag : Option String := none
  deriving Repr, DecidableEq

/-- The `if (this.x !== undefined) updateData[x] = this.x` chain of
`CountryModel.update`. -/
def countryUpdateData (m : CountryMem) : CountryUpdateData :=
  { code := m.code, iso := m.iso, name := m.name,
    timezone := m.timezone, mobileRegex := m.mobileRegex, flag := m.flag }

/-- Effect of a SQL `UPDATE ... SET` restricted to the payload's columns on
one row: columns absent from the payload keep their value. -/
def applyUpdateData (u : CountryUpdateData) (r : CountryRow) : CountryRow :=
  { r with
    code := match u.code with | some v => v | none => r.code
    iso := match u.iso with | some v => v | none => r.iso
    name := match u.name with | some v => v | none => r.name
    timezone := match u.timezone with | some v => some v | none => r.timezone
    mobileRegex := match u.mobileRegex with | some v => some v | none => r.mobileRegex
    flag := match u.flag with | some v => some v | none => r.flag }

/-- `BaseModel.updateOne` on the country table: update every row matching
the `where id = ...` clause and report the affected count. -/
def countryUpdateOne (st : CountryTable) (u : CountryUpdateData) (id : Nat) :
    CountryTable × Nat :=
  (st.map (fun r => if r.id = id then applyUpdateData u r else r),
   (st.filter (fun r => r.id = id)).length)

/-- `CountryModel.update`: validate (which normalises the instance), require
the primary key, build `updateData` from the defined (cleaned) fields and
run the update; zero affected rows is an error.  The result also carries
the normalised instance state. -/
def countryUpdate (st : CountryTable) (m0 : CountryMem) :
    Except String (CountryTable × CountryMem) :=
  match countryValidate m0 with
  | .error e => .error e
  | .ok m =>
    match m.id with
    | none => .error "Country ID is required for update"
    | some i =>
      if (countryUpdateOne st (countryUpdateData m) i).2 = 0 then
        .error "Failed to update country entry"
      else .ok ((countryUpdateOne st (countryUpdateData m) i).1, m)

/-- `Country.save`: create when the instance has no primary key, update
otherwise; afterwards the instance holds the normalised fields (plus, on
create, the new `id` and `guid`: exactly the inserted row).  A thrown error
is re-wrapped by `throw new Error(error)`, which makes the surfaced message
"Error: " followed by the original one. -/
def countrySave (st : CountryTable) (m : CountryMem) :
    Except String (CountryTable × CountryMem) :=
  let inner : Except String (CountryTable × CountryMem) :=
    match m.id with
    | none => (countryCreate st m).map (fun res => (res.1, memOfRow res.2))
    | some _ => countryUpdate st m
  match inner with
  | .ok res => .ok res
  | .error msg => .error ("Error: " ++ msg)

/-! ## The country Express router (`country.route.ts`) -/

/-- JSON value of an optional number field. -/
def optNum : Option Nat → JVal
  | some n => .num n
  | none => .null

/-- JSON value of an optional string field. -/
def optStr : Option String → JVal
  | some s => .str s
  | none => .null

/-- `Country.toJSON`. -/
def countryMemToJSON (m : CountryMem) : JVal :=
  .obj [("guid", optNum m.guid), ("code", optNum m.code), ("iso", optStr m.iso),
        ("name", optStr m.name), ("timezone", optStr m.timezone),
        ("mobileRegex", optStr m.mobileRegex), ("flag", optStr m.flag)]

/-- The request body of `POST /` and `PUT /:guid`; `none` models an absent
(or falsy, for the `POST` required-field checks) field, and the numeric
code is taken after the route's `Number(code)` conversion. -/
structure CountryPostBody where
  code : Option Nat := none
  iso : Option String := none
  name : Option String := none
  timezone : Option String := none
  mobileRegex : Option String := none
  flag : Option String := none
  deriving Repr, DecidableEq

/-- `POST /` handler: required-field checks, then `save()` on a fresh
instance; a thrown message is dispatched on its substrings —
"already exists" to 409, then "ISO" and "code" to 400 variants. -/
def postCountry (st : CountryTable) (b : CountryPostBody) (ts : String) : RouteResponse :=
  match b.code with
  | none => (400, handleErrorBody ⟨"code_required", "Country code is required"⟩ ts)
  | some code =>
  match b.iso with
  | none => (400, handleErrorBody ⟨"iso_required", "Country ISO code is required"⟩ ts)
  | some iso =>
  match b.name with
  | none => (400, handleErrorBody ⟨"name_required", "Country name is required"⟩ ts)
  | some nm =>
    let m : CountryMem :=
      { code := some code, iso := some iso, name := some nm,
        timezone := b.timezone, mobileRegex := b.mobileRegex, flag := b.flag }
    match countrySave st m with
    | .ok res => (201, handleSuccessBody (countryMemToJSON res.2))
    | .error msg =>
      if jsIncludes msg "already exists" then
        (409, handleErrorBody ⟨"country_already_exists", msg⟩ ts)
      else if jsIncludes msg "ISO" then
        (400, handleErrorBody ⟨"invalid_iso", msg⟩ ts)
      else if jsIncludes msg "code" then
        (400, handleErrorBody ⟨"invalid_code", msg⟩ ts)
      else
        (400, handleErrorBody ⟨"creation_failed", msg⟩ ts)

/-- Merge of the `PUT` body into a loaded instance: the route calls each
setter only under `if (field !== undefined)`. -/
def mergePutBody (m : CountryMem) (b : CountryPostBody) : CountryMem :=
  { m with
    code := match b.code with | some v => some v | none => m.code
    iso := match b.iso with | some v => some v | none => m.iso
    name := match b.name with | some v => some v | none => m.name
    timezone := match b.timezone with | some v => some v | none => m.timezone
    mobileRegex := match b.mobileRegex with | some v => some v | none => m.mobileRegex
    flag := match b.flag with | some v => some v | none => m.flag }

/-- `PUT /:guid` handler: `^\d{6}$` GUID check, load by GUID (404 when no
row matches), merge the supplied fields and `save()`; thrown messages are
dispatched as for `POST`. -/
def putCountry (st : CountryTable) (guidStr : String) (b : CountryPostBody)
    (ts : String) : RouteResponse :=
  if !isSixDigits guidStr then
    (400, handleErrorBody ⟨"invalid_guid", "GUID must be a positive integer"⟩ ts)
  else
    match jsParseInt guidStr with
    | none =>
      -- unreachable: a string of six digits always parses
      (400, handleErrorBody ⟨"invalid_guid", "GUID must be a positive integer"⟩ ts)
    | some g =>
      match countryFindByGuid st g.toNat with
      | none => (404, handleErrorBody ⟨"country_not_found", "Country not found"⟩ ts)
      | some row =>
        let m := mergePutBody (memOfRow row) b
        match countrySave st m with
        | .ok res => (200, handleSuccessBody (countryMemToJSON res.2))
        | .error msg =>
          if jsIncludes msg "already exists" then
            (409, handleErrorBody ⟨"country_already_exists", msg⟩ ts)
          else if jsIncludes msg "ISO" then
            (400, handleErrorBody ⟨"invalid_iso", msg⟩ ts)
          else if jsIncludes msg "code" then
            (400, handleErrorBody ⟨"invalid_code", msg⟩ ts)
          else
            (400, handleErrorBody ⟨"update_failed", msg⟩ ts)

/-- `DELETE /:guid` handler: `^\d+$` GUID check, load by GUID (404 when no
row matches), then `delete()` which removes the rows with the loaded
primary key. -/
def deleteCountry (st : CountryTable) (guidStr : String) (ts : String) : RouteResponse :=
  if !isDigits1 guidStr then
    (400, handleErrorBody ⟨"invalid_guid", "GUID must be a positive integer"⟩ ts)
  else
    match jsParseInt guidStr with
    | none =>
      -- unreachable: a nonempty string of digits always parses
      (400, handleErrorBody ⟨"invalid_guid", "GUID must be a positive integer"⟩ ts)
    | some g =>
      match countryFindByGuid st g.toNat with
      | none => (404, handleErrorBody ⟨"country_not_found", "Country not found"⟩ ts)
      | some row =>
        if st.any (fun r => r.id = row.id) then
          (200, handleSuccessBody (.obj
            [("message", .str "Country deleted successfully"), ("guid", .num g),
             ("iso", .str row.iso), ("name", .str row.name)]))
        else (500, handleErrorBody ⟨"data_saved_error", "items not saved"⟩ ts)

/-- `GET /:identifier` handler: a numeric identifier is tried as primary
key, then GUID, then numeric code; a two-letter identifier as ISO; when no
row matches, 404. -/
def getCountryByIdentifier (st : CountryTable) (ident : String) (ts : String) :
    RouteResponse :=
  let country : Option CountryRow :=
    if isDigits1 ident then
      match jsParseInt ident with
      | none => none
      | some n =>
        match countryFindById st n.toNat with
        | some r => some r
        | none =>
          match countryFindByGuid st n.toNat with
          | some r => some r
          | none => countryFindByCode st n.toNat
    else if isTwoLetters ident then
      countryFindByIso st (jsToUpper ident)
    else none
  match country with
  | some r => (200, handleSuccessBody (countryMemToJSON (memOfRow r)))
  | none =>
    (404, handleErrorBody
      ⟨"country_not_found", "Country with identifier '" ++ ident ++ "' not found"⟩ ts)

/-! ## Billing-cycle schema validators (`billing.cycle.db.ts`) -/

/-- The billing statuses. -/
inductive BillingStatus where
  | PENDING | PROCESSING | COMPLETED | FAILED | CANCELLED | OVERDUE
  deriving Repr, DecidableEq

/-- The columns of a billing-cycle row taking part in the embedded
validators; timestamps are epoch instants, `none` models SQL `NULL`,
monetary amounts are exact rationals. -/
structure BillingCycleRow where
  billing_status : BillingStatus
  invoice_generated_at : Option Int := none
  payment_completed_at : Option Int := none
  subtotal_usd : Rat
  tax_amount_usd : Rat
  total_amount_usd : Rat
  deriving Repr, DecidableEq

/-- `total_amount_usd.validate.isCorrectTotal`: throws when the total
differs from subtotal + tax by more than the 0.01 tolerance. -/
def isCorrectTotal (r : BillingCycleRow) : Except String Unit :=
  if |r.total_amount_usd - (r.subtotal_usd + r.tax_amount_usd)| > 1 / 100 then
    .error "Total amount must equal subtotal + tax amount"
  else .ok ()

/-- `invoice_generated_at.validate.isRequiredForCompleted`: throws when the
status is COMPLETED and the timestamp is absent (falsy). -/
def invoiceRequiredForCompleted (r : BillingCycleRow) : Except String Unit :=
  if r.billing_status = .COMPLETED ∧ r.invoice_generated_at = none then
    .error "Invoice generated date is required when billing status is COMPLETED"
  else .ok ()

/-- `payment_completed_at.validate.isRequiredForCompleted`: same pattern for
the payment timestamp. -/
def paymentRequiredForCompleted (r : BillingCycleRow) : Except String Unit :=
  if r.billing_status = .COMPLETED ∧ r.payment_completed_at = none then
    .error "Payment completed date is required when billing status is COMPLETED"
  else .ok ()

/-- Model-level validation of a billing-cycle row: the custom validators of
the embedded columns, run as Sequelize validation does before any write. -/
def billingCycleValidate (r : BillingCycleRow) : Except String Unit :=
  match isCorrectTotal r with
  | .error e => .error e
  | .ok _ =>
    match invoiceRequiredForCompleted r with
    | .error e => .error e
    | .ok _ => paymentRequiredForCompleted r

/-- A row reaches the table only when validation passes. -/
def persistBillingCycle (r : BillingCycleRow) : Option BillingCycleRow :=
  match billingCycleValidate r with
  | .ok _ => some r
  | .error _ => none

/-- Reference decimal rendering of a natural number, most significant digit
first; used to reason about `Nat.repr`. -/
def natChars (n : Nat) : List Char :=
  if _h : n < 10 then [Nat.digitChar n]
  else natChars (n / 10) ++ [Nat.digitChar (n % 10)]
  decreasing_by exact Nat.div_lt_self (by omega) (by omega)

/-! ## License-adjustment validators (`license.adjustment.db.ts`) -/

/-- `validation.validateTotalCalculation`: accepts when
`subtotal_usd + tax_amount_usd` is within the fixed 0.01 tolerance of
`total_amount_usd`. -/
def validateTotalCalculation (subtotal_usd tax_amount_usd total_amount_usd : Rat) : Bool :=
  decide (|subtotal_usd + tax_amount_usd - total_amount_usd| ≤ 1 / 100)

/-- The (possibly partial) data object handed to `validateAdjustmentModel`;
`none` models an absent field. -/
structure AdjustmentData where
  employees_added_count : Option Rat := none
  months_remaining : Option Rat := none
  price_per_employee_usd : Option Rat := none
  subtotal_usd : Option Rat := none
  tax_amount_usd : Option Rat := none
  total_amount_usd : Option Rat := none
  exchange_rate_used : Option Rat := none
  subtotal_local : Option Rat := none
  tax_amount_local : Option Rat := none
  total_amount_local : Option Rat := none
  adjustment_date : Option Int := none
  invoice_sent_at : Option Int := none
  payment_completed_at : Option Int := none
  deriving Repr, DecidableEq

/-- JavaScript truthiness of a numeric field: present and nonzero. -/
def numTruthy : Option Rat → Bool
  | some q => q ≠ 0
  | none => false

/-- JavaScript truthiness of a date field: a `Date` object is truthy. -/
def dateTruthy : Option Int → Bool :=
  Option.isSome

/-- `validation.validateAdjustmentModel`: each cross-field check runs only
when every participating field is truthy; it returns `(isValid, errors)`. -/
def validateAdjustmentModel (d : AdjustmentData) : Bool × List String :=
  let errs1 : List String :=
    if numTruthy d.employees_added_count && numTruthy d.months_remaining &&
        numTruthy d.price_per_employee_usd && numTruthy d.subtotal_usd then
      let computed := d.employees_added_count.getD 0 * d.months_remaining.getD 0 *
        d.price_per_employee_usd.getD 0
      if |computed - d.subtotal_usd.getD 0| > 1 / 100 then
        ["Subtotal calculation error: employees_added_count * months_remaining * price_per_employee_usd must equal subtotal_usd (±0.01)"]
      else []
    else []
  let errs2 : List String :=
    if numTruthy d.subtotal_usd && numTruthy d.tax_amount_usd &&
        numTruthy d.total_amount_usd then
      if |d.subtotal_usd.getD 0 + d.tax_amount_usd.getD 0 - d.total_amount_usd.getD 0|
          > 1 / 100 then
        ["Total calculation error: subtotal_usd + tax_amount_usd must equal total_amount_usd (±0.01)"]
      else []
    else []
  let errs3 : List String :=
    if numTruthy d.exchange_rate_used && numTruthy d.subtotal_usd &&
        numTruthy d.tax_amount_usd && numTruthy d.total_amount_usd &&
        numTruthy d.subtotal_local && numTruthy d.tax_amount_local &&
        numTruthy d.total_amount_local then
      (if |d.subtotal_usd.getD 0 * d.exchange_rate_used.getD 0 - d.subtotal_local.getD 0|
          > 1 / 100 then
        ["Local subtotal inconsistency: subtotal_usd * exchange_rate_used must equal subtotal_local (±0.01)"]
      else []) ++
      (if |d.tax_amount_usd.getD 0 * d.exchange_rate_used.getD 0 - d.tax_amount_local.getD 0|
          > 1 / 100 then
        ["Local tax inconsistency: tax_amount_usd * exchange_rate_used must equal tax_amount_local (±0.01)"]
      else []) ++
      (if |d.total_amount_usd.getD 0 * d.exchange_rate_used.getD 0 - d.total_amount_local.getD 0|
          > 1 / 100 then
        ["Local total inconsistency: total_amount_usd * exchange_rate_used must equal total_amount_local (±0.01)"]
      else [])
    else []
  let errs4 : List String :=
    if dateTruthy d.adjustment_date && dateTruthy d.payment_completed_at then
      if d.payment_completed_at.getD 0 < d.adjustment_date.getD 0 then
        ["payment_completed_at must be after adjustment_date"]
      else []
    else []
  let errs5 : List String :=
    if dateTruthy d.invoice_sent_at && dateTruthy d.payment_completed_at then
      if d.payment_completed_at.getD 0 < d.invoice_sent_at.getD 0 then
        ["payment_completed_at must be after invoice_sent_at"]
      else []
    else []
  let errors := errs1 ++ errs2 ++ errs3 ++ errs4 ++ errs5
  (errors.isEmpty, errors)

/-! ## Revision timestamps (`Revision.getRevision`) -/

/-- The UTC components of a JavaScript `Date`, as read by `getUTCFullYear`
(`year`, in `0..275760` for representable dates), `getUTCMonth() + 1`
(`month`, `1..12`), `getUTCDate`, `getUTCHours` and `getUTCMinutes`. -/
structure UtcDate where
  year : Nat
  month : Nat
  day : Nat
  hour : Nat
  minute : Nat
  deriving Repr, DecidableEq

/-- Range constraints the JavaScript accessors guarantee for a valid
(non-negative-year) `Date`. -/
def jsValidUtcDate (d : UtcDate) : Prop :=
  d.year ≤ 275760 ∧ 1 ≤ d.month ∧ d.month ≤ 12 ∧ 1 ≤ d.day ∧ d.day ≤ 31 ∧
    d.hour ≤ 23 ∧ d.minute ≤ 59

instance (d : UtcDate) : Decidable (jsValidUtcDate d) := by
  unfold jsValidUtcDate; infer_instance

/-- JavaScript `String(n).padStart(2, '0')`. -/
def pad2 (n : Nat) : String :=
  if (Nat.repr n).length ≥ 2 then Nat.repr n
  else if (Nat.repr n).length = 1 then "0" ++ Nat.repr n
  else "00"

/-- `Revision.getRevision`: the constant `'202501010000'` when the table has
no last-modification timestamp, otherwise
`${year}${month}${day}${hours}${minutes}` with the four short components
zero-padded to two characters (the year is not padded). -/
def getRevision (lastModified : Option UtcDate) : String :=
  match lastModified with
  | none => "202501010000"
  | some d =>
    Nat.repr d.year ++ pad2 d.month ++ pad2 d.day ++ pad2 d.hour ++ pad2 d.minute

/-- The concrete adjustment data of C9: a zero tax amount with an
inconsistent total. -/
def C9data : AdjustmentData :=
  { subtotal_usd := some 100, tax_amount_usd := some 0, total_amount_usd := some 500 }

/-- The raw in-memory state of the C7 witness update: a lowercase ISO, a
padded name and a padded timezone, on the persisted row with id 1. -/
def C7mem : CountryMem :=
  { id := some 1, code := some 2, iso := some "fr",
    name := some " Fy ", timezone := some " UTC " }

/-- The previously persisted row the C7 witness updates. -/
def C7row : CountryRow :=
  ⟨1, 100001, 5, "DE", "Old", some "Africa/Douala", some "cmMobile", none⟩

/-- The one-row country table used by the C4 witness. -/
def C4table : CountryTable :=
  [⟨1, 100001, 250, "FR", "France", none, none, none⟩]

/-- The C4 witness `POST` body: a fresh numeric code but the lowercase ISO
"fr", which validation normalises to the already-used "FR". -/
def C4postBody : CountryPostBody :=
  { code := some 999, iso := some "fr", name := some "Germany" }

/-! ## Helper lemmas -/

theorem hasSubList_append_right (pat a b : List Char) (h : hasSubList pat b = true) :
    hasSubList pat (a ++ b) = true := by
  induction a with
  | nil => simpa using h
  | cons x xs ih =>
    simp only [List.cons_append, hasSubList, Bool.or_eq_true]
    exact Or.inr ih

/-- The thrown duplicate messages end in "already exists", so the route's
`includes` test sees them after any wrapping. -/
theorem jsIncludes_of_data_suffix (s pat tail : String)
    (hsplit : s.data = tail.data ++ pat.data) :
    jsIncludes s pat = true := by
  unfold jsIncludes
  rw [hsplit]
  apply hasSubList_append_right
  cases hp : pat.data with
  | nil => simp [hasSubList]
  | cons c cs =>
    have hlead : ∀ l rest : List Char, leadsWith l (l ++ rest) = true := by
      intro l
      induction l with
      | nil => intro rest; rfl
      | cons y ys ih => intro rest; simp [leadsWith, ih]
    have : hasSubList (c :: cs) ((c :: cs) ++ []) = true := by
      simp only [List.cons_append, hasSubList, Bool.or_eq_true]
      exact Or.inl (hlead (c :: cs) [] ▸ hlead (c :: cs) [])
    simpa [hp] using this

theorem length_take_le' {α : Type} (n : Nat) (l : List α) : (l.take n).length ≤ n := by
  simp [List.length_take]

/-- `Nat.digitChar` of a value below ten is a decimal digit character. -/
theorem digitChar_isDigit (m : Nat) (h : m < 10) : (Nat.digitChar m).isDigit = true := by
  interval_cases m <;> decide

/-- Every character of the reference rendering is a decimal digit. -/
theorem natChars_all_digits (n : Nat) : (natChars n).all Char.isDigit = true := by
  induction n using Nat.strong_induction_on with
  | _ n ih =>
    unfold natChars
    split
    · next h => simp [digitChar_isDigit n h]
    · next h =>
      have hd : (natChars (n / 10)).all Char.isDigit = true :=
        ih (n / 10) (Nat.div_lt_self (by omega) (by omega))
      simp [List.all_append, hd, digitChar_isDigit (n % 10) (Nat.mod_lt n (by omega))]

/-- A number with `k+1` decimal digits renders to `k+1` characters. -/
theorem natChars_length (k : Nat) : ∀ n : Nat, 10 ^ k ≤ n → n < 10 ^ (k + 1) →
    (natChars n).length = k + 1 := by
  induction k with
  | zero =>
    intro n _ hlt
    unfold natChars
    have : n < 10 := by simpa using hlt
    simp [this]
  | succ k ih =>
    intro n hge hlt
    have hn10 : ¬ n < 10 := by
      have : 10 ≤ 10 ^ (k + 1) := by
        calc 10 = 10 ^ 1 := by norm_num
        _ ≤ 10 ^ (k + 1) := Nat.pow_le_pow_right (by omega) (by omega)
      omega
    unfold natChars
    rw [dif_neg hn10]
    have hge' : 10 ^ k ≤ n / 10 := by
      rw [Nat.le_div_iff_mul_le (by omega)]
      calc 10 ^ k * 10 = 10 ^ (k + 1) := by ring
      _ ≤ n := hge
    have hlt' : n / 10 < 10 ^ (k + 1) := by
      rw [Nat.div_lt_iff_lt_mul (by omega)]
      calc n < 10 ^ (k + 2) := hlt
      _ = 10 ^ (k + 1) * 10 := by ring
    simp [ih (n / 10) hge' hlt']

/-- `Nat.toDigitsCore` agrees with the reference rendering when given
enough fuel. -/
theorem toDigitsCore_eq_natChars :
    ∀ (fuel n : Nat) (acc : List Char), n < fuel →
      Nat.toDigitsCore 10 fuel n acc = natChars n ++ acc := by
  intro fuel
  induction fuel with
  | zero => intro n acc h; omega
  | succ fuel ih =>
    intro n acc h
    rw [Nat.toDigitsCore]
    by_cases hz : n / 10 = 0
    · have hn : n < 10 := by omega
      rw [if_pos hz]
      unfold natChars
      rw [dif_pos hn, Nat.mod_eq_of_lt hn]
      rfl
    · rw [if_neg hz]
      have hndiv : n / 10 < fuel := by
        have h1 : n / 10 < n := Nat.div_lt_self (by omega) (by omega)
        omega
      rw [ih (n / 10) _ hndiv]
      have hn10 : ¬ n < 10 := by
        intro hlt
        exact hz (Nat.div_eq_of_lt hlt)
      conv_rhs => rw [natChars, dif_neg hn10]
      simp

/-- `Nat.repr` agrees with the reference rendering. -/
theorem repr_eq_natChars (n : Nat) : (Nat.repr n).data = natChars n := by
  show (Nat.toDigits 10 n).asString.data = natChars n
  rw [Nat.toDigits]
  rw [toDigitsCore_eq_natChars (n + 1) n [] (by omega)]
  simp [List.asString]

/-- Decimal renderings consist of digit characters only. -/
theorem repr_all_digits (n : Nat) : (Nat.repr n).data.all Char.isDigit = true := by
  rw [repr_eq_natChars]; exact natChars_all_digits n

/-- Character count of a decimal rendering with known digit count. -/
theorem repr_length_eq (k n : Nat) (hge : 10 ^ k ≤ n) (hlt : n < 10 ^ (k + 1)) :
    (Nat.repr n).data.length = k + 1 := by
  rw [repr_eq_natChars]; exact natChars_length k n hge hlt

/-- Below ten the rendering is a single character. -/
theorem repr_length_one (n : Nat) (h : n < 10) : (Nat.repr n).data.length = 1 := by
  rw [repr_eq_natChars]; unfold natChars; rw [dif_pos h]; rfl

/-- Closed form of the GUID generator at the default length 6. -/
theorem guidGenerator_six (m : Nat) : guidGenerator m 6 = some (m + 100001) := by
  unfold guidGenerator
  norm_num
  omega

/-- `pad2` always yields exactly two characters for values up to 99. -/
theorem pad2_length (n : Nat) (h : n ≤ 99) : (pad2 n).data.length = 2 := by
  unfold pad2
  by_cases h10 : n < 10
  · have h1 : (Nat.repr n).data.length = 1 := repr_length_one n h10
    have hlen : (Nat.repr n).length = 1 := h1
    rw [if_neg (by omega), if_pos hlen]
    simp [String.data_append, h1]
  · have h2 : (Nat.repr n).data.length = 2 := by
      refine repr_length_eq 1 n (by omega) (by norm_num; omega)
    have hlen : (Nat.repr n).length = 2 := h2
    rw [if_pos (by omega)]
    exact h2

/-- `pad2` consists of digit characters only. -/
theorem pad2_all_digits (n : Nat) : (pad2 n).data.all Char.isDigit = true := by
  unfold pad2
  split
  · exact repr_all_digits n
  · split
    · simpa [String.data_append] using repr_all_digits n
    · decide

/-! ## C1: pagination cap -/

/-- C1, counterexample: a query `limit=1001` parses to 1001 > 1000, yet the
listing of a 1001-row table returns all 1001 rows — the claimed ≤ 1000 cap
does not hold; over-large limits are dropped rather than clamped. -/
theorem C1_counterexample :
    jsParseInt "1001" = some 1001 ∧ (1000 : Int) < 1001 ∧
    (findAllRows (extractPaginationFromQuery none (some "1001"))
        (List.replicate 1001 (0 : Nat))).length = 1001 ∧
    ¬ ((findAllRows (extractPaginationFromQuery none (some "1001"))
        (List.replicate 1001 (0 : Nat))).length ≤ 1000) := by
  have hp : extractPaginationFromQuery none (some "1001") =
      { offset := none, limit := none } := by decide
  have hr : findAllRows (extractPaginationFromQuery none (some "1001"))
      (List.replicate 1001 (0 : Nat)) = List.replicate 1001 (0 : Nat) := by
    rw [hp]; rfl
  refine ⟨by decide, by decide, ?_, ?_⟩
  · rw [hr, List.length_replicate]
  · rw [hr, List.length_replicate]; omega

/-- C1 (amended): a supplied `limit` that parses into `(0, 1000]` caps the
returned rows at that value; a `limit` parsing above 1000 is discarded by
`extractPaginationFromQuery`, so `findAll` runs without any row cap (with no
offset it returns every row, however many). -/
theorem C1_pagination_cap {α : Type} (qoff : Option String) (s : String) (n : Int)
    (rows : List α) (hparse : jsParseInt s = some n) :
    (0 < n → n ≤ 1000 →
      (findAllRows (extractPaginationFromQuery qoff (some s)) rows).length ≤ n.toNat) ∧
    (1000 < n → (extractPaginationFromQuery qoff (some s)).limit = none) ∧
    (1000 < n → qoff = none →
      findAllRows (extractPaginationFromQuery qoff (some s)) rows = rows) := by
  refine ⟨?_, ?_, ?_⟩
  · intro h1 h2
    have hlim : (extractPaginationFromQuery qoff (some s)).limit = some n := by
      simp [extractPaginationFromQuery, hparse, h1, h2]
    simp only [findAllRows, hlim, if_pos h1]
    exact length_take_le' _ _
  · intro hbig
    have : ¬ (0 < n ∧ n ≤ 1000) := by omega
    simp [extractPaginationFromQuery, hparse, this]
  · intro hbig hoff
    subst hoff
    have hlim : (extractPaginationFromQuery none (some s)).limit = none := by
      have : ¬ (0 < n ∧ n ≤ 1000) := by omega
      simp [extractPaginationFromQuery, hparse, this]
    have hoffnone : (extractPaginationFromQuery none (some s)).offset = none := by
      simp [extractPaginationFromQuery]
    simp only [findAllRows, hlim, applyOffset, hoffnone]

/-- C1 witness: at `limit=1001` the parsed limit is dropped and a 1001-row
table is returned in full; at `limit=42` at most 42 rows come back. -/
theorem C1_pagination_cap_witness :
    (extractPaginationFromQuery none (some "1001")).limit = none ∧
    findAllRows (extractPaginationFromQuery none (some "1001"))
      (List.replicate 1001 (0 : Nat)) = List.replicate 1001 (0 : Nat) ∧
    (findAllRows (extractPaginationFromQuery none (some "42"))
      (List.replicate 50 (0 : Nat))).length ≤ (42 : Int).toNat :=
  ⟨(C1_pagination_cap none "1001" 1001 (List.replicate 1001 (0 : Nat))
      (by decide)).2.1 (by decide),
   (C1_pagination_cap none "1001" 1001 (List.replicate 1001 (0 : Nat))
      (by decide)).2.2 (by decide) rfl,
   (C1_pagination_cap none "42" 42 (List.replicate 50 (0 : Nat))
      (by decide)).1 (by decide) (by decide)⟩

/-! ## C2: GUID value -/

/-- C2, counterexample: on an empty table (`max(id) = 0`) the generated GUID
is 100001, not `max(id) + 100000 = 100000`: the generator adds `max(id) + 1`
to the offset. -/
theorem C2_counterexample :
    guidGenerator 0 6 = some 100001 ∧ (100001 : Nat) ≠ 0 + 100000 := by
  decide

/-- C2 (amended): with default length 6 the generator returns
`offset + (max(id) + 1)` with `offset = 10^5`, i.e. `max(id) + 100001`. -/
theorem C2_guid_value (m : Nat) : guidGenerator m 6 = some (m + 100001) :=
  guidGenerator_six m

/-! ## C3: response envelope -/

/-- C3, counterexample: a success response contains no `timestamp` field —
only error responses carry one. -/
theorem C3_counterexample :
    jsonGet (handleSuccessBody (.str "payload")) "success" = some (.bool true) ∧
    "timestamp" ∉ jsonKeys (handleSuccessBody (.str "payload")) := by
  exact ⟨rfl, by decide⟩

/-- C3 (amended): success responses are `{success: true, data}`, error
responses are `{success: false, error: {code, message}, timestamp}`; both
carry the boolean `success` flag but only error responses a timestamp. -/
theorem C3_envelope (data : JVal) (e : ErrBody) (ts : String) :
    jsonKeys (handleSuccessBody data) = ["success", "data"] ∧
    jsonGet (handleSuccessBody data) "success" = some (.bool true) ∧
    jsonGet (handleSuccessBody data) "data" = some data ∧
    jsonKeys (handleErrorBody e ts) = ["success", "error", "timestamp"] ∧
    jsonGet (handleErrorBody e ts) "success" = some (.bool false) ∧
    jsonGet (handleErrorBody e ts) "error" =
      some (.obj [("code", .str e.code), ("message", .str e.message)]) ∧
    jsonGet (handleErrorBody e ts) "timestamp" = some (.str ts) :=
  ⟨rfl, rfl, rfl, rfl, rfl, rfl, rfl⟩

/-! ## C5: amount reconciliation tolerance -/

/-- C5: the adjustment-schema validator `validateTotalCalculation` accepts
exactly when `subtotal_usd + tax_amount_usd` is within 0.01 of
`total_amount_usd`, and the billing-cycle column validator `isCorrectTotal`
passes under exactly the same condition (amounts modelled as exact
rationals). -/
theorem C5_total_tolerance (s t tot : Rat) (status : BillingStatus) (inv pay : Option Int) :
    (validateTotalCalculation s t tot = true ↔ |s + t - tot| ≤ 1 / 100) ∧
    (validateTotalCalculation s t tot = false ↔ 1 / 100 < |s + t - tot|) ∧
    (isCorrectTotal ⟨status, inv, pay, s, t, tot⟩ = .ok () ↔ |s + t - tot| ≤ 1 / 100) := by
  refine ⟨by simp [validateTotalCalculation], by simp [validateTotalCalculation], ?_⟩
  unfold isCorrectTotal
  simp only [gt_iff_lt, abs_sub_comm tot (s + t)]
  by_cases h : (1 : Rat) / 100 < |s + t - tot|
  · rw [if_pos h]
    simp only [iff_false, reduceCtorEq, false_iff]
    exact not_le.mpr h
  · rw [if_neg h]
    simpa using not_lt.mp h

/-! ## C6: COMPLETED billing cycles need an invoice timestamp -/

/-- C6: a billing cycle whose status is COMPLETED but whose
`invoice_generated_at` is absent fails validation with the documented
message (so it is never persisted), and conversely every persisted
COMPLETED cycle carries an invoice timestamp. -/
theorem C6_completed_requires_invoice (r : BillingCycleRow) :
    (r.billing_status = .COMPLETED → r.invoice_generated_at = none →
      invoiceRequiredForCompleted r =
        .error "Invoice generated date is required when billing status is COMPLETED" ∧
      persistBillingCycle r = none) ∧
    (∀ r' : BillingCycleRow, persistBillingCycle r = some r' →
      r'.billing_status = .COMPLETED → r'.invoice_generated_at.isSome = true) := by
  constructor
  · intro hs hi
    have hv : invoiceRequiredForCompleted r =
        .error "Invoice generated date is required when billing status is COMPLETED" := by
      unfold invoiceRequiredForCompleted
      rw [if_pos ⟨hs, hi⟩]
    refine ⟨hv, ?_⟩
    unfold persistBillingCycle billingCycleValidate
    cases hct : isCorrectTotal r with
    | error e => rfl
    | ok u => rw [hv]
  · intro r' hp hs
    unfold persistBillingCycle at hp
    cases hv : billingCycleValidate r with
    | error e => rw [hv] at hp; exact absurd hp (by simp)
    | ok u =>
      rw [hv] at hp
      have hr : r = r' := by simpa using hp
      subst hr
      unfold billingCycleValidate at hv
      cases hct : isCorrectTotal r with
      | error e => rw [hct] at hv; exact absurd hv (by simp)
      | ok v =>
        rw [hct] at hv
        cases hir : invoiceRequiredForCompleted r with
        | error e => rw [hir] at hv; exact absurd hv (by simp)
        | ok w =>
          unfold invoiceRequiredForCompleted at hir
          by_cases hcond : r.billing_status = .COMPLETED ∧ r.invoice_generated_at = none
          · rw [if_pos hcond] at hir; exact absurd hir (by simp)
          · cases hio : r.invoice_generated_at with
            | some x => rfl
            | none => exact absurd ⟨hs, hio⟩ hcond

/-- A concrete COMPLETED billing cycle that passes validation. -/
theorem persistBillingCycle_ok_example :
    persistBillingCycle ⟨.COMPLETED, some 3, some 5, 0, 0, 0⟩ =
      some ⟨.COMPLETED, some 3, some 5, 0, 0, 0⟩ := by
  have h1 : isCorrectTotal ⟨.COMPLETED, some 3, some 5, 0, 0, 0⟩ = .ok () := by
    unfold isCorrectTotal
    rw [if_neg]
    show ¬ (|(0 : Rat) - (0 + 0)| > 1 / 100)
    norm_num
  have h2 : invoiceRequiredForCompleted ⟨.COMPLETED, some 3, some 5, 0, 0, 0⟩ = .ok () := by
    unfold invoiceRequiredForCompleted
    rw [if_neg]
    simp
  have h3 : paymentRequiredForCompleted ⟨.COMPLETED, some 3, some 5, 0, 0, 0⟩ = .ok () := by
    unfold paymentRequiredForCompleted
    rw [if_neg]
    simp
  unfold persistBillingCycle billingCycleValidate
  rw [h1, h2, h3]

/-- C6 witness: the concrete COMPLETED cycle without an invoice timestamp is
rejected, and a persisted COMPLETED cycle has one. -/
theorem C6_completed_requires_invoice_witness :
    (invoiceRequiredForCompleted ⟨.COMPLETED, none, some 5, 1, 0, 1⟩ =
      .error "Invoice generated date is required when billing status is COMPLETED" ∧
     persistBillingCycle ⟨.COMPLETED, none, some 5, 1, 0, 1⟩ = none) ∧
    (⟨.COMPLETED, some 3, some 5, 0, 0, 0⟩ : BillingCycleRow).invoice_generated_at.isSome
      = true :=
  ⟨(C6_completed_requires_invoice ⟨.COMPLETED, none, some 5, 1, 0, 1⟩).1 rfl rfl,
   (C6_completed_requires_invoice ⟨.COMPLETED, some 3, some 5, 0, 0, 0⟩).2
     ⟨.COMPLETED, some 3, some 5, 0, 0, 0⟩ persistBillingCycle_ok_example rfl⟩

/-! ## C8: range of generated GUIDs -/

/-- C8, counterexample: once the table's maximum id reaches 899999 the
generated GUID is 1000000, which exceeds 999999 and fails the route's
six-digit check — the claimed bound does not hold for every table state. -/
theorem C8_counterexample :
    guidGenerator 899999 6 = some 1000000 ∧ ¬ ((1000000 : Nat) ≤ 999999) ∧
    isSixDigits (Nat.repr 1000000) = false := by
  refine ⟨by decide, by decide, ?_⟩
  have h7 : (Nat.repr 1000000).data.length = 7 :=
    repr_length_eq 6 1000000 (by norm_num) (by norm_num)
  simp [isSixDigits, h7]

/-- C8 (amended): for every table whose maximum id is at most 899998 the
generated GUID lies in [100001, 999999] — in particular it meets the
schema's `min: 100000` bound and the route's `^\d{6}$` check; beyond that
maximum id the GUID grows past 999999. -/
theorem C8_guid_six_digits (m : Nat) (h : m ≤ 899998) :
    ∃ g, guidGenerator m 6 = some g ∧ 100000 ≤ g ∧ g ≤ 999999 ∧
      isSixDigits (Nat.repr g) = true := by
  refine ⟨m + 100001, guidGenerator_six m, by omega, by omega, ?_⟩
  have e5 : (10 : Nat) ^ 5 = 100000 := by norm_num
  have e6 : (10 : Nat) ^ (5 + 1) = 1000000 := by norm_num
  have hlen : (Nat.repr (m + 100001)).data.length = 6 :=
    repr_length_eq 5 (m + 100001) (by rw [e5]; omega) (by rw [e6]; omega)
  simp [isSixDigits, hlen, repr_all_digits]

/-- C8 witness: on an empty table the GUID is a six-digit value. -/
theorem C8_guid_six_digits_witness :
    ∃ g, guidGenerator 0 6 = some g ∧ 100000 ≤ g ∧ g ≤ 999999 ∧
      isSixDigits (Nat.repr g) = true :=
  C8_guid_six_digits 0 (by decide)

/-! ## C9: truthiness-guarded model validation -/

/-- C9: `validateAdjustmentModel` runs its total-reconciliation check only
when all participating fields are truthy; with `tax_amount_usd = 0` (falsy)
and a total off by far more than 0.01 it still reports a valid model with
no errors. -/
theorem C9_zero_tax_skips_check :
    validateAdjustmentModel C9data = (true, []) ∧
    numTruthy C9data.tax_amount_usd = false ∧
    ¬ (|(100 : Rat) + 0 - 500| ≤ 1 / 100) := by
  refine ⟨?_, by simp [C9data, numTruthy], ?_⟩
  · simp [validateAdjustmentModel, C9data, numTruthy, dateTruthy]
  · rw [abs_of_nonpos (by norm_num)]
    norm_num

/-! ## C10: revision string format -/

/-- C10, counterexample: a valid timestamp in year 999 yields an 11-character
revision string, so the result is not always 12 decimal digits. -/
theorem C10_counterexample :
    jsValidUtcDate ⟨999, 1, 1, 0, 0⟩ ∧
    getRevision (some ⟨999, 1, 1, 0, 0⟩) = "99901010000" ∧
    (getRevision (some ⟨999, 1, 1, 0, 0⟩)).data.length = 11 ∧
    ¬ ((getRevision (some ⟨999, 1, 1, 0, 0⟩)).data.length = 12) := by
  refine ⟨by decide, by decide, by decide, by decide⟩

/-- C10 (amended): with no last-modification timestamp the revision is the
12-digit constant `'202501010000'`; for a timestamp whose UTC year has four
digits (1000–9999) the formatted `YYYYMMDDHHMM` string consists of exactly
12 decimal digits. -/
theorem C10_revision_format (d : UtcDate) (hvalid : jsValidUtcDate d)
    (hy1 : 1000 ≤ d.year) (hy2 : d.year ≤ 9999) :
    getRevision none = "202501010000" ∧
    (getRevision none).data.length = 12 ∧
    (getRevision none).data.all Char.isDigit = true ∧
    (getRevision (some d)).data.length = 12 ∧
    (getRevision (some d)).data.all Char.isDigit = true := by
  obtain ⟨-, -, hm2, -, hd2, hh, hmin⟩ := hvalid
  refine ⟨rfl, by decide, by decide, ?_, ?_⟩
  · show (Nat.repr d.year ++ pad2 d.month ++ pad2 d.day ++ pad2 d.hour ++
      pad2 d.minute).data.length = 12
    simp only [String.data_append, List.length_append]
    rw [repr_length_eq 3 d.year (by norm_num; omega) (by norm_num; omega),
      pad2_length d.month (by omega), pad2_length d.day (by omega),
      pad2_length d.hour (by omega), pad2_length d.minute (by omega)]
  · show (Nat.repr d.year ++ pad2 d.month ++ pad2 d.day ++ pad2 d.hour ++
      pad2 d.minute).data.all Char.isDigit = true
    simp only [String.data_append, List.all_append, Bool.and_eq_true]
    exact ⟨⟨⟨⟨repr_all_digits d.year, pad2_all_digits d.month⟩, pad2_all_digits d.day⟩,
      pad2_all_digits d.hour⟩, pad2_all_digits d.minute⟩

/-- C10 witness: a concrete 2025 timestamp formats to 12 digits. -/
theorem C10_revision_format_witness :
    (getRevision (some ⟨2025, 6, 15, 12, 30⟩)).data.length = 12 ∧
    (getRevision (some ⟨2025, 6, 15, 12, 30⟩)).data.all Char.isDigit = true :=
  ⟨(C10_revision_format ⟨2025, 6, 15, 12, 30⟩ (by decide) (by decide) (by decide)).2.2.2.1,
   (C10_revision_format ⟨2025, 6, 15, 12, 30⟩ (by decide) (by decide) (by decide)).2.2.2.2⟩

/-! ## C7: the update path writes only supplied columns -/

/-- A successful `CountryModel.validate` returns exactly the
`cleanData`-normalised instance state. -/
theorem countryValidate_ok_clean (m v : CountryMem)
    (h : countryValidate m = .ok v) : v = cleanData m := by
  unfold countryValidate at h
  cases hc : countryValidateChecks m with
  | error e => rw [hc] at h; exact absurd h (by simp)
  | ok u => rw [hc] at h; simpa using h.symm

/-- `cleanData` does not touch the primary key. -/
theorem cleanData_id (m : CountryMem) : (cleanData m).id = m.id := rfl

/-- C7: a successful `save()` on a persisted country updates the table
pointwise — only the row with the instance's primary key changes, it
changes exactly by the defined in-memory fields (written in their
`cleanData`-normalised form, e.g. a supplied timezone is trimmed), and
`id` and `guid` (absent from the update payload) never change; columns
whose fields are `undefined` keep their previous values. -/
theorem C7_update_frame (st : CountryTable) (m : CountryMem) (i : Nat)
    (st' : CountryTable) (m' : CountryMem)
    (hid : m.id = some i) (hupd : countryUpdate st m = .ok (st', m')) :
    m' = cleanData m ∧
    st' = st.map (fun r =>
      if r.id = i then applyUpdateData (countryUpdateData (cleanData m)) r else r) ∧
    ∀ r : CountryRow,
      (applyUpdateData (countryUpdateData (cleanData m)) r).id = r.id ∧
      (applyUpdateData (countryUpdateData (cleanData m)) r).guid = r.guid ∧
      (m.code = none →
        (applyUpdateData (countryUpdateData (cleanData m)) r).code = r.code) ∧
      (m.iso = none →
        (applyUpdateData (countryUpdateData (cleanData m)) r).iso = r.iso) ∧
      (m.name = none →
        (applyUpdateData (countryUpdateData (cleanData m)) r).name = r.name) ∧
      (m.timezone = none →
        (applyUpdateData (countryUpdateData (cleanData m)) r).timezone = r.timezone) ∧
      (m.mobileRegex = none →
        (applyUpdateData (countryUpdateData (cleanData m)) r).mobileRegex = r.mobileRegex) ∧
      (m.flag = none →
        (applyUpdateData (countryUpdateData (cleanData m)) r).flag = r.flag) ∧
      (∀ v, m.code = some v →
        (applyUpdateData (countryUpdateData (cleanData m)) r).code = v) ∧
      (∀ v, m.timezone = some v → v ≠ "" →
        (applyUpdateData (countryUpdateData (cleanData m)) r).timezone = some (jsTrim v)) := by
  have hframe : ∀ r : CountryRow,
      (applyUpdateData (countryUpdateData (cleanData m)) r).id = r.id ∧
      (applyUpdateData (countryUpdateData (cleanData m)) r).guid = r.guid ∧
      (m.code = none →
        (applyUpdateData (countryUpdateData (cleanData m)) r).code = r.code) ∧
      (m.iso = none →
        (applyUpdateData (countryUpdateData (cleanData m)) r).iso = r.iso) ∧
      (m.name = none →
        (applyUpdateData (countryUpdateData (cleanData m)) r).name = r.name) ∧
      (m.timezone = none →
        (applyUpdateData (countryUpdateData (cleanData m)) r).timezone = r.timezone) ∧
      (m.mobileRegex = none →
        (applyUpdateData (countryUpdateData (cleanData m)) r).mobileRegex = r.mobileRegex) ∧
      (m.flag = none →
        (applyUpdateData (countryUpdateData (cleanData m)) r).flag = r.flag) ∧
      (∀ v, m.code = some v →
        (applyUpdateData (countryUpdateData (cleanData m)) r).code = v) ∧
      (∀ v, m.timezone = some v → v ≠ "" →
        (applyUpdateData (countryUpdateData (cleanData m)) r).timezone = some (jsTrim v)) := by
    intro r
    refine ⟨rfl, rfl, ?_, ?_, ?_, ?_, ?_, ?_, ?_, ?_⟩
    · intro h; simp [applyUpdateData, countryUpdateData, cleanData, h]
    · intro h; simp [applyUpdateData, countryUpdateData, cleanData, cleanOptStr, h]
    · intro h; simp [applyUpdateData, countryUpdateData, cleanData, cleanOptStr, h]
    · intro h; simp [applyUpdateData, countryUpdateData, cleanData, cleanOptStr, h]
    · intro h; simp [applyUpdateData, countryUpdateData, cleanData, cleanOptStr, h]
    · intro h; simp [applyUpdateData, countryUpdateData, cleanData, cleanOptStr, h]
    · intro v h; simp [applyUpdateData, countryUpdateData, cleanData, h]
    · intro v h hne
      simp [applyUpdateData, countryUpdateData, cleanData, cleanOptStr, h, hne]
  unfold countryUpdate at hupd
  cases hval : countryValidate m with
  | error e => rw [hval] at hupd; exact absurd hupd (by simp)
  | ok v =>
    have hveq : v = cleanData m := countryValidate_ok_clean m v hval
    subst hveq
    simp only [hval, cleanData_id, hid] at hupd
    by_cases hz : (countryUpdateOne st (countryUpdateData (cleanData m)) i).2 = 0
    · rw [if_pos hz] at hupd; exact absurd hupd (by simp)
    · rw [if_neg hz] at hupd
      simp only [Except.ok.injEq, Prod.mk.injEq] at hupd
      obtain ⟨hst, hm⟩ := hupd
      exact ⟨hm.symm, by rw [← hst]; rfl, hframe⟩

/-- C7 witness: updating a persisted row with `code`, a lowercase `iso`,
a padded `name` and the timezone `" UTC "` writes the normalised values
("FR", "Fy", "UTC"), keeps `guid`, and retains the unsupplied
`mobileRegex` column. -/
theorem C7_update_frame_witness :
    ({ id := some 1, code := some 2, iso := some "FR", name := some "Fy",
        timezone := some "UTC" } : CountryMem) = cleanData C7mem ∧
    ([⟨1, 100001, 2, "FR", "Fy", some "UTC", some "cmMobile", none⟩] : CountryTable) =
      [C7row].map
        (fun r => if r.id = 1 then applyUpdateData (countryUpdateData (cleanData C7mem)) r
          else r) ∧
    (applyUpdateData (countryUpdateData (cleanData C7mem)) C7row).guid = 100001 ∧
    (applyUpdateData (countryUpdateData (cleanData C7mem)) C7row).mobileRegex =
      some "cmMobile" ∧
    (applyUpdateData (countryUpdateData (cleanData C7mem)) C7row).timezone =
      some (jsTrim " UTC ") := by
  have happ := C7_update_frame [C7row] C7mem 1
    [⟨1, 100001, 2, "FR", "Fy", some "UTC", some "cmMobile", none⟩]
    { id := some 1, code := some 2, iso := some "FR", name := some "Fy",
      timezone := some "UTC" }
    rfl
    (by rfl)
  have hr := happ.2.2 C7row
  exact ⟨happ.1.symm, happ.2.1, hr.2.1, hr.2.2.2.2.2.2.1 rfl,
    hr.2.2.2.2.2.2.2.2.2 " UTC " rfl (by decide)⟩

/-! ## C4: duplicate keys map to 409, unknown GUIDs to 404 -/

/-- Any wrapped duplicate message still contains "already exists". -/
theorem includes_already_generic (a x : String) :
    jsIncludes ("Error: " ++ (a ++ x ++ "' already exists")) "already exists" = true := by
  have h : hasSubList "already exists".data "' already exists".data = true := by decide
  unfold jsIncludes
  simp only [String.data_append, List.append_assoc]
  exact hasSubList_append_right _ _ _
    (hasSubList_append_right _ _ _ (hasSubList_append_right _ _ _ h))

/-- `CountryModel.create` on a duplicate (cleaned) numeric code throws the
"already exists" message. -/
theorem countryCreate_dup_code (st : CountryTable) (m0 m : CountryMem)
    (hval : countryValidate m0 = .ok m)
    (hdup : (countryFindByCode st (m.code.getD 0)).isSome = true) :
    countryCreate st m0 =
      .error ("Country code '" ++ Nat.repr (m.code.getD 0) ++ "' already exists") := by
  unfold countryCreate
  simp only [hval, guidGenerator_six, hdup, if_pos]

/-- `CountryModel.create` on a fresh code but duplicate (cleaned) ISO throws
the ISO "already exists" message. -/
theorem countryCreate_dup_iso (st : CountryTable) (m0 m : CountryMem)
    (hval : countryValidate m0 = .ok m)
    (hnc : (countryFindByCode st (m.code.getD 0)).isSome = false)
    (hdi : (countryFindByIso st (m.iso.getD "")).isSome = true) :
    countryCreate st m0 =
      .error ("Country ISO '" ++ m.iso.getD "" ++ "' already exists") := by
  unfold countryCreate
  simp only [hval, guidGenerator_six, hnc, hdi]
  rfl

/-- C4: (a) a `POST /` whose body passes validation (normalising to the
instance state `m'`) and repeats an existing numeric code or ISO code —
also via a lowercase ISO, which validation upper-cases — is answered with
409 and a `country_already_exists` `{code, message}` error envelope; (b) a
`PUT /:guid`, (c) a `DELETE /:guid` and (d) a numeric `GET /:identifier`
that match no row are answered with 404 `country_not_found`. -/
theorem C4_conflict_and_not_found
    (st : CountryTable) (b : CountryPostBody) (ts gs gd ident : String)
    (c : Nat) (iso nm : String) (m' : CountryMem) (g gi nid : Int) :
    (b.code = some c → b.iso = some iso → b.name = some nm →
      countryValidate ⟨none, none, some c, some iso, some nm,
        b.timezone, b.mobileRegex, b.flag⟩ = .ok m' →
      ((countryFindByCode st (m'.code.getD 0)).isSome = true ∨
        (countryFindByIso st (m'.iso.getD "")).isSome = true) →
      ∃ msg, postCountry st b ts =
        (409, handleErrorBody ⟨"country_already_exists", msg⟩ ts)) ∧
    (isSixDigits gs = true → jsParseInt gs = some g →
      countryFindByGuid st g.toNat = none →
      putCountry st gs b ts =
        (404, handleErrorBody ⟨"country_not_found", "Country not found"⟩ ts)) ∧
    (isDigits1 gd = true → jsParseInt gd = some gi →
      countryFindByGuid st gi.toNat = none →
      deleteCountry st gd ts =
        (404, handleErrorBody ⟨"country_not_found", "Country not found"⟩ ts)) ∧
    (isDigits1 ident = true → jsParseInt ident = some nid →
      countryFindById st nid.toNat = none → countryFindByGuid st nid.toNat = none →
      countryFindByCode st nid.toNat = none →
      getCountryByIdentifier st ident ts =
        (404, handleErrorBody
          ⟨"country_not_found", "Country with identifier '" ++ ident ++ "' not found"⟩ ts)) := by
  refine ⟨?_, ?_, ?_, ?_⟩
  · intro hc hi hn hval hdup
    by_cases hdc : (countryFindByCode st (m'.code.getD 0)).isSome = true
    · have hcreate := countryCreate_dup_code st
        ⟨none, none, some c, some iso, some nm, b.timezone, b.mobileRegex, b.flag⟩
        m' hval hdc
      have hsave : countrySave st
          ⟨none, none, some c, some iso, some nm, b.timezone, b.mobileRegex, b.flag⟩ =
          .error ("Error: " ++
            ("Country code '" ++ Nat.repr (m'.code.getD 0) ++ "' already exists")) := by
        unfold countrySave
        simp only [hcreate]
        rfl
      refine ⟨"Error: " ++
        ("Country code '" ++ Nat.repr (m'.code.getD 0) ++ "' already exists"), ?_⟩
      unfold postCountry
      simp only [hc, hi, hn, hsave, includes_already_generic, if_true]
    · have hnc : (countryFindByCode st (m'.code.getD 0)).isSome = false := by
        simpa using hdc
      have hdi : (countryFindByIso st (m'.iso.getD "")).isSome = true := by
        rcases hdup with h | h
        · exact absurd h hdc
        · exact h
      have hcreate := countryCreate_dup_iso st
        ⟨none, none, some c, some iso, some nm, b.timezone, b.mobileRegex, b.flag⟩
        m' hval hnc hdi
      have hsave : countrySave st
          ⟨none, none, some c, some iso, some nm, b.timezone, b.mobileRegex, b.flag⟩ =
          .error ("Error: " ++
            ("Country ISO '" ++ m'.iso.getD "" ++ "' already exists")) := by
        unfold countrySave
        simp only [hcreate]
        rfl
      refine ⟨"Error: " ++ ("Country ISO '" ++ m'.iso.getD "" ++ "' already exists"), ?_⟩
      unfold postCountry
      simp only [hc, hi, hn, hsave, includes_already_generic, if_true]
  · intro hsix hparse hnone
    unfold putCountry
    simp only [hsix, hparse, hnone, Bool.not_true, Bool.false_eq_true, if_false]
  · intro hdig hparse hnone
    unfold deleteCountry
    simp only [hdig, hparse, hnone, Bool.not_true, Bool.false_eq_true, if_false]
  · intro hdig hparse h1 h2 h3
    unfold getCountryByIdentifier
    simp only [hdig, hparse, h1, h2, h3, if_true]

/-- C4 witness: on the concrete one-row table (ISO "FR"), the `POST` with a
fresh code and the lowercase ISO "fr" — upper-cased by validation to the
duplicate "FR" — is answered 409, and the `PUT`/`DELETE`/`GET` on absent
identifiers 404. -/
theorem C4_conflict_and_not_found_witness :
    (∃ msg, postCountry C4table C4postBody "2025-01-01T00:00:00.000Z" =
      (409, handleErrorBody ⟨"country_already_exists", msg⟩ "2025-01-01T00:00:00.000Z")) ∧
    putCountry C4table "999999" C4postBody "2025-01-01T00:00:00.000Z" =
      (404, handleErrorBody ⟨"country_not_found", "Country not found"⟩
        "2025-01-01T00:00:00.000Z") ∧
    deleteCountry C4table "42" "2025-01-01T00:00:00.000Z" =
      (404, handleErrorBody ⟨"country_not_found", "Country not found"⟩
        "2025-01-01T00:00:00.000Z") ∧
    getCountryByIdentifier C4table "77" "2025-01-01T00:00:00.000Z" =
      (404, handleErrorBody
        ⟨"country_not_found", "Country with identifier '77' not found"⟩
        "2025-01-01T00:00:00.000Z") := by
  have happ := C4_conflict_and_not_found C4table C4postBody
    "2025-01-01T00:00:00.000Z" "999999" "42" "77" 999 "fr" "Germany"
    ⟨none, none, some 999, some "FR", some "Germany", none, none, none⟩
    999999 42 77
  exact ⟨happ.1 rfl rfl rfl (by rfl) (Or.inr (by rfl)),
    happ.2.1 (by rfl) (by rfl) (by rfl),
    happ.2.2.1 (by rfl) (by rfl) (by rfl),
    happ.2.2.2 (by rfl) (by rfl) (by rfl) (by rfl) (by rfl)⟩

end TokeApi

/-! Concrete sanity checks of the embedded JavaScript primitives. -/

section SanityChecks

open TokeApi

example : jsParseInt "1001" = some 1001 := by decide
example : jsParseInt " +42x" = some 42 := by decide
example : jsParseInt "x42" = none := by decide
example : jsParseInt "-7" = some (-7) := by decide
example : extractPaginationFromQuery none (some "1001") = { offset := none, limit := none } := by
  decide
example : extractPaginationFromQuery (some "5") (some "100") =
    { offset := some 5, limit := some 100 } := by decide
example : findAllRows { offset := some 1, limit := some 2 } [1, 2, 3, 4, 5] = [2, 3] := by decide
example : guidGenerator 0 6 = some 100001 := by decide
example : guidGenerator 899999 6 = some 1000000 := by decide
example : jsIncludes "Error: Country code '12' already exists" "already exists" = true := by decide
example : isSixDigits "123456" = true := by decide
example : isSixDigits "12345a" = false := by decide

end SanityChecks
